import Mathlib

/-!
Verification development for the Sankhya sales proxy (SANKHYA_VENDAS).

Shallow embedding of the token-lifecycle and cache-aside request layer of
`src/lib/sankhya-api.ts` and `src/lib/produtos-service.ts`.  Timestamps are
milliseconds modelled as `Int` (JS `Date.now()`), cache TTLs are seconds
modelled as `Nat`.  JS objects holding entity fields are modelled as
functions `String → Option String` (absent key ↦ `none`); JS string
truthiness is modelled as "nonempty string".
-/

namespace SankhyaVendas

/-! ### Token cache record (interface `TokenCache`, sankhya-api.ts lines 51-55) -/

structure TokenCache where
  token : String
  expiresAt : Int
  geradoEm : String
deriving DecidableEq

/-- Fast-path read of `obterToken` (sankhya-api.ts lines 126-134): if a cached
record is present with a truthy token and `tempoRestante = expiresAt - agora`
is positive and refresh is not forced, its token is returned; otherwise the
function falls through to renewal (`none`). -/
def tokenFastPath (tokenData : Option TokenCache) (agora : Int) (forceRefresh : Bool) :
    Option String :=
  match tokenData with
  | none => none
  | some td =>
    if td.token ≠ "" then
      if td.expiresAt - agora > 0 ∧ forceRefresh = false then some td.token else none
    else none

/-- Final token read after the lock-wait ceiling is exceeded (sankhya-api.ts
lines 186-196): the token is returned only when `expiresAt - agora > 0`,
otherwise the timeout error is thrown (`none` here). -/
def tokenAfterLockTimeout (tokenData : Option TokenCache) (agora : Int) : Option String :=
  match tokenData with
  | none => none
  | some td =>
    if td.token ≠ "" then
      if td.expiresAt - agora > 0 then some td.token else none
    else none

/-! ### Token persistence timing (sankhya-api.ts lines 256-267, claim C8) -/

/-- `expiresAt = Date.now() + 20 * 60 * 1000` (line 257). -/
def tokenExpiresAt (now : Int) : Int := now + 20 * 60 * 1000

/-- TTL passed to `cacheService.set(TOKEN_CACHE_KEY, tokenData, 20 * 60)`
(line 267), in seconds. -/
def TOKEN_TTL_SECONDS : Nat := 20 * 60

/-- Instant at which the store evicts the credential: the `set` happens at
`setTime` (line 267, after `expiresAt` was computed at line 257) and the entry
lives for the TTL. -/
def tokenEvictionTime (setTime : Int) : Int := setTime + (TOKEN_TTL_SECONDS : Int) * 1000

/-! ### Positional-field normalization (produtos-service.ts `mapearEntidades`
lines 186-206, sankhya-api.ts `mapearParceiros` lines 484-505).

A raw row is `Nat → Option String`: slot `i` models `rawEntity["f" + i]`,
`some v` meaning the slot is present with `{$ : v}`.  The accumulated clean
object is a JS object, modelled as `String → Option String` where assignment
overwrites (`setField`). -/

def setField (o : String → Option String) (k : String) (v : String) :
    String → Option String :=
  fun x => if x = k then some v else o x

def emptyObj : String → Option String := fun _ => none

/-- The `for (let i = 0; i < fieldNames.length; i++)` loop: zip field name `i`
to positional slot `f<i>`, skipping absent slots. -/
def mapearLinhaAux (row : Nat → Option String) :
    List String → Nat → (String → Option String) → (String → Option String)
  | [], _, o => o
  | name :: rest, i, o =>
    mapearLinhaAux row rest (i + 1)
      (match row i with
       | some v => setField o name v
       | none => o)

def mapearLinha (fieldNames : List String) (row : Nat → Option String) :
    String → Option String :=
  mapearLinhaAux row fieldNames 0 emptyObj

/-- `entities.entity` is either a single object or an array
(`Array.isArray(entities.entity) ? entities.entity : [entities.entity]`). -/
inductive RawEntities where
  | one (row : Nat → Option String)
  | many (rows : List (Nat → Option String))

def entityArray : RawEntities → List (Nat → Option String)
  | .one r => [r]
  | .many rs => rs

/-- `cleanObject._id = cleanObject[idField] ? String(cleanObject[idField]) :
String(index)` — the id field's value when truthy, else the row index. -/
def withId (idField : String) (index : Nat) (o : String → Option String) :
    String → Option String :=
  match o idField with
  | some c => if c = "" then setField o "_id" (toString index) else setField o "_id" c
  | none => setField o "_id" (toString index)

/-- `mapearEntidades` (produtos-service.ts lines 186-206); `_id` comes from
`CODPROD`. -/
def mapearEntidades (fieldNames : List String) (raw : RawEntities) :
    List (String → Option String) :=
  (entityArray raw).enum.map (fun p => withId "CODPROD" p.1 (mapearLinha fieldNames p.2))

/-- `mapearParceiros` (sankhya-api.ts lines 484-505); `_id` comes from
`CODPARC`. -/
def mapearParceiros (fieldNames : List String) (raw : RawEntities) :
    List (String → Option String) :=
  (entityArray raw).enum.map (fun p => withId "CODPARC" p.1 (mapearLinha fieldNames p.2))

/-- The positional row of the spec's normalization round-trip example:
`{f0:{$:"10"}, f1:{$:"Widget"}}`. -/
def exampleRow : Nat → Option String :=
  fun i => if i = 0 then some "10" else if i = 1 then some "Widget" else none

/-! #### Normalization lemmas -/

theorem mapearLinhaAux_not_mem (row : Nat → Option String) (names : List String)
    (i : Nat) (o : String → Option String) (k : String) (hk : k ∉ names) :
    mapearLinhaAux row names i o k = o k := by
  induction names generalizing i o with
  | nil => rfl
  | cons name rest ih =>
    simp only [List.mem_cons, not_or] at hk
    simp only [mapearLinhaAux]
    rw [ih _ _ hk.2]
    cases row i with
    | none => rfl
    | some v => simp [setField, hk.1]

theorem mapearLinhaAux_get (row : Nat → Option String) (names : List String)
    (i0 : Nat) (o : String → Option String) (hnd : names.Nodup)
    (j : Nat) (h : j < names.length) :
    mapearLinhaAux row names i0 o (names.get ⟨j, h⟩) =
      match row (i0 + j) with
      | some v => some v
      | none => o (names.get ⟨j, h⟩) := by
  induction names generalizing i0 o j with
  | nil => exact absurd h (Nat.not_lt_zero j)
  | cons name rest ih =>
    rw [List.nodup_cons] at hnd
    cases j with
    | zero =>
      simp only [List.get, mapearLinhaAux, Nat.add_zero]
      rw [mapearLinhaAux_not_mem _ _ _ _ _ hnd.1]
      cases row i0 with
      | none => rfl
      | some v => simp [setField]
    | succ j' =>
      have h' : j' < rest.length := Nat.lt_of_succ_lt_succ h
      simp only [List.get, mapearLinhaAux]
      rw [ih _ _ hnd.2 j' h']
      have harith : i0 + 1 + j' = i0 + (j' + 1) := by omega
      rw [harith]
      have hmem : rest.get ⟨j', h'⟩ ∈ rest := List.get_mem rest j' h'
      have hne : rest.get ⟨j', h'⟩ ≠ name := fun he => hnd.1 (he ▸ hmem)
      cases row (i0 + (j' + 1)) with
      | none =>
        cases row i0 with
        | none => rfl
        | some v => simp only [setField]; rw [if_neg hne]
      | some v => rfl

/-! ### Authenticated request executor (`fazerRequisicaoAutenticada`,
sankhya-api.ts lines 345-481).

Each attempt's network outcome is `resp n` where `n` is the `retryCount` the
attempt runs with.  `httpError s` models an axios error with
`erro.response.status = s`; `netError c` models an axios error with no
response and `erro.code = c`.  Events record the observable side effects: the
attempt itself, the `cache.delete('sankhya:token')` on 401/403, and the
backoff sleeps.  The fire-and-forget `addApiLog` reporting (lines 367-441) is
omitted: it swallows its own errors and does not affect control flow. -/

inductive NetCode where
  | econnaborted
  | enotfound
  | otherCode
deriving DecidableEq

inductive HttpOutcome where
  | success (data : String)
  | httpError (status : Nat)
  | netError (code : NetCode)
deriving DecidableEq

inductive ReqError where
  | sessionExpired
  | timeoutExceeded
  | serviceUnavailable
  | networkFailure
  | requestFailed (status : Nat)
deriving DecidableEq

inductive Event where
  | attempt (retryCount : Nat)
  | deleteToken
  | sleep (ms : Nat)
deriving DecidableEq

/-- Worker for `fazerRequisicaoAutenticada`. The source recurses with
`retryCount + 1` under the guards `retryCount < 1` (401/403 path) and
`retryCount < 2` (network/5xx path, `MAX_RETRIES = 2`); `remaining` is the
structural budget `2 - retryCount`, so `retryCount < 1 ↔ 2 ≤ remaining` and
`retryCount < 2 ↔ 1 ≤ remaining` at every call. -/
def fazerReqGo (resp : Nat → HttpOutcome) :
    Nat → Nat → HttpOutcome → Except ReqError String × List Event
  | _, retryCount, .success d => (.ok d, [.attempt retryCount])
  | remaining, retryCount, .httpError s =>
    if s = 401 ∨ s = 403 then
      match remaining with
      | r + 2 =>
        let rest := fazerReqGo resp (r + 1) (retryCount + 1) (resp (retryCount + 1))
        (rest.1, .attempt retryCount :: .deleteToken :: .sleep 500 :: rest.2)
      | _ => (.error .sessionExpired, [.attempt retryCount, .deleteToken])
    else if 500 ≤ s then
      match remaining with
      | r + 1 =>
        let rest := fazerReqGo resp r (retryCount + 1) (resp (retryCount + 1))
        (rest.1, .attempt retryCount :: .sleep (1000 * (retryCount + 1)) :: rest.2)
      | 0 => (.error .serviceUnavailable, [.attempt retryCount])
    else (.error (.requestFailed s), [.attempt retryCount])
  | remaining, retryCount, .netError c =>
    if c = .econnaborted ∨ c = .enotfound then
      match remaining with
      | r + 1 =>
        let rest := fazerReqGo resp r (retryCount + 1) (resp (retryCount + 1))
        (rest.1, .attempt retryCount :: .sleep (1000 * (retryCount + 1)) :: rest.2)
      | 0 =>
        if c = .econnaborted then (.error .timeoutExceeded, [.attempt retryCount])
        else (.error .networkFailure, [.attempt retryCount])
    else (.error .networkFailure, [.attempt retryCount])

def fazerRequisicaoAutenticada (resp : Nat → HttpOutcome) (retryCount : Nat) :
    Except ReqError String × List Event :=
  fazerReqGo resp (2 - retryCount) retryCount (resp retryCount)

/-- Spec classification (section 7): the `ServiceUnavailable` error class
covers failures surfaced after 5xx responses or network-level errors — the
code's "Serviço temporariamente indisponível" and "Tempo de resposta excedido"
throws and the generic message propagated for a response-less network error. -/
def specServiceUnavailableClass : ReqError → Bool
  | .serviceUnavailable => true
  | .timeoutExceeded => true
  | .networkFailure => true
  | _ => false

/-! ### Token renewal retry loop (`obterToken`, sankhya-api.ts lines 231-330).

`login n` is the outcome of the login request issued with retry counter `n`.
`success ""` models a 2xx response whose body had neither `bearerToken` nor
`token` (falsy), which throws inside the `try` and is caught by the same
`catch`.  Events record the lock release (line 283 / 290), the token save
(line 267), the credential cleanup (line 313) and the backoff sleeps.  The
`finally` block repeats the lock release (idempotent `delete`) and resets
`tokenPromise`; it is not traced. -/

inductive LoginOutcome where
  | success (token : String)
  | httpFail (status : Nat)
  | netFail
deriving DecidableEq

inductive AuthError where
  | serviceUnavailable
  | authFailed
deriving DecidableEq

inductive AuthEvent where
  | loginAttempt (retryCount : Nat)
  | saveToken
  | releaseLock
  | clearToken
  | sleep (ms : Nat)
deriving DecidableEq

/-- Worker for the renewal loop.  The source retries only when
`erro.response?.status === 500 && retryCount < MAX_RETRIES` with
`MAX_RETRIES = 3` and `RETRY_DELAY = 1000`; `remaining` is the structural
budget `3 - retryCount`, so `retryCount < 3 ↔ 1 ≤ remaining` at every call. -/
def obterTokenRenewGo (login : Nat → LoginOutcome) :
    Nat → Nat → LoginOutcome → Except AuthError String × List AuthEvent
  | _, retryCount, .success tok =>
    if tok = "" then
      (.error .authFailed, [.loginAttempt retryCount, .releaseLock, .clearToken])
    else (.ok tok, [.loginAttempt retryCount, .saveToken, .releaseLock])
  | remaining, retryCount, .httpFail s =>
    if s = 500 then
      match remaining with
      | r + 1 =>
        let rest := obterTokenRenewGo login r (retryCount + 1) (login (retryCount + 1))
        (rest.1, .loginAttempt retryCount :: .releaseLock ::
          .sleep (1000 * (retryCount + 1)) :: rest.2)
      | 0 => (.error .serviceUnavailable, [.loginAttempt retryCount, .releaseLock, .clearToken])
    else (.error .authFailed, [.loginAttempt retryCount, .releaseLock, .clearToken])
  | _, retryCount, .netFail =>
    (.error .authFailed, [.loginAttempt retryCount, .releaseLock, .clearToken])

def obterTokenRenew (login : Nat → LoginOutcome) (retryCount : Nat) :
    Except AuthError String × List AuthEvent :=
  obterTokenRenewGo login (3 - retryCount) retryCount (login retryCount)

/-! ### Distributed-lock acquisition under concurrency (`obterToken`,
sankhya-api.ts lines 142-229, claim C2).

Two process instances run `obterToken` concurrently after both missed the
fast path (no valid token, each instance's `tokenPromise` is `null`).  Each
step is the synchronous code between two `await` suspension points:

* `checkLock`  — `const existing = await cacheService.get(LOCK_KEY)` (line 154)
  followed by the branch on `!existing`;
* `setLock`    — `await cacheService.set(LOCK_KEY, lockValue, LOCK_TTL)`
  (line 157).  The Shared Cache Store is modelled from the spec (section 6,
  `redis-cache-wrapper` is not under src/): `set` unconditionally overwrites,
  there is no compare-and-set, so this write succeeds even if the other
  process wrote the lock after our `get`;
* `recheckToken` — the wait branch (lines 165-179): sleep, re-read the token,
  return it (deleting the lock) when present, else loop;
* `doubleCheck` — the re-read of the token after acquiring the lock
  (lines 204-219);
* `renewing`   — the login + save + release of the `tokenPromise` body
  (lines 236-286), compressed to one atomic step (compression only removes
  interleavings, it cannot create the race exhibited below). -/

inductive LockPC where
  | checkLock
  | setLock
  | recheckToken
  | doubleCheck
  | renewing
  | finished
deriving DecidableEq

structure LockSys where
  lock : Option Bool
  token : Option String
  pcA : LockPC
  pcB : LockPC
  logins : Nat
deriving DecidableEq

def pcOf (s : LockSys) (i : Bool) : LockPC := if i then s.pcB else s.pcA

def setPc (s : LockSys) (i : Bool) (pc : LockPC) : LockSys :=
  if i then { s with pcB := pc } else { s with pcA := pc }

def lockStep (s : LockSys) (i : Bool) : LockSys :=
  match pcOf s i with
  | .checkLock =>
    if s.lock = none then setPc s i .setLock else setPc s i .recheckToken
  | .setLock => { setPc s i .doubleCheck with lock := some i }
  | .recheckToken =>
    match s.token with
    | some _ => { setPc s i .finished with lock := none }
    | none => setPc s i .checkLock
  | .doubleCheck =>
    match s.token with
    | some _ => { setPc s i .finished with lock := none }
    | none => setPc s i .renewing
  | .renewing =>
    { setPc s i .finished with
      token := some (if i then "tokenB" else "tokenA"),
      lock := none,
      logins := s.logins + 1 }
  | .finished => s

def lockInit : LockSys := ⟨none, none, .checkLock, .checkLock, 0⟩

def lockRun (sched : List Bool) : LockSys := sched.foldl lockStep lockInit

/-! ### Request deduplicator (`dedupedRequest`, produtos-service.ts lines
7-23, claim C6).

`pending` models the `pendingRequests: Map<string, Promise>`; each pending
registration carries the id of the physical operation it shares.  A
`request k` event is the synchronous body of `dedupedRequest(k, fetcher)`
(has/get/invoke-`fetcher()`/set, with no `await` in between); a `settle k`
event is the `.finally(() => pendingRequests.delete(key))` callback running
when the operation under `k` settles, successfully or not.  `started`
accumulates the physical operations ever invoked, `settled` those whose
promise has settled, `joins` the callers that received an already-pending
shared promise instead of invoking the operation again. -/

structure DedupState where
  pending : List (String × Nat)
  nextId : Nat
  started : List (String × Nat)
  settled : List (String × Nat)
  joins : List (String × Nat)
deriving DecidableEq

inductive DedupEvent where
  | request (key : String)
  | settle (key : String)
deriving DecidableEq

def lookupKey : List (String × Nat) → String → Option Nat
  | [], _ => none
  | (k', v) :: rest, k => if k' = k then some v else lookupKey rest k

def removeKey : List (String × Nat) → String → List (String × Nat)
  | [], _ => []
  | (k', v) :: rest, k =>
    if k' = k then removeKey rest k else (k', v) :: removeKey rest k

def dedupStep (s : DedupState) : DedupEvent → DedupState
  | .request k =>
    match lookupKey s.pending k with
    | some id => { s with joins := (k, id) :: s.joins }
    | none =>
      { s with
        pending := (k, s.nextId) :: s.pending,
        started := (k, s.nextId) :: s.started,
        nextId := s.nextId + 1 }
  | .settle k =>
    match lookupKey s.pending k with
    | some id =>
      { s with pending := removeKey s.pending k, settled := (k, id) :: s.settled }
    | none => s

def dedupInit : DedupState := ⟨[], 0, [], [], []⟩

def dedupRun (events : List DedupEvent) : DedupState := events.foldl dedupStep dedupInit

/-- Number of entries under key `k`. -/
def countKey (l : List (String × Nat)) (k : String) : Nat :=
  (l.filter (fun p => p.1 = k)).length

/-- Deduplicator invariant: at most one pending registration per key, and
every physical operation ever started is either still pending or settled, so
`started - settled = pending ≤ 1` operations are in flight per key. -/
def DedupInv (s : DedupState) : Prop :=
  ∀ k, countKey s.pending k ≤ 1 ∧
    countKey s.started k = countKey s.pending k + countKey s.settled k

theorem countKey_cons_self (k : String) (v : Nat) (l : List (String × Nat)) :
    countKey ((k, v) :: l) k = countKey l k + 1 := by
  simp [countKey, List.filter]

theorem countKey_cons_ne (k' : String) (v : Nat) (l : List (String × Nat)) (k : String)
    (h : ¬ k' = k) : countKey ((k', v) :: l) k = countKey l k := by
  simp [countKey, List.filter, h]

theorem lookupKey_none_countKey (l : List (String × Nat)) (k : String)
    (h : lookupKey l k = none) : countKey l k = 0 := by
  induction l with
  | nil => rfl
  | cons p rest ih =>
    obtain ⟨k', v⟩ := p
    by_cases hk : k' = k
    · simp [lookupKey, hk] at h
    · simp only [lookupKey, if_neg hk] at h
      rw [countKey_cons_ne _ _ _ _ hk, ih h]

theorem lookupKey_some_countKey (l : List (String × Nat)) (k : String) (id : Nat)
    (h : lookupKey l k = some id) : 1 ≤ countKey l k := by
  induction l with
  | nil => simp [lookupKey] at h
  | cons p rest ih =>
    obtain ⟨k', v⟩ := p
    by_cases hk : k' = k
    · subst hk
      rw [countKey_cons_self]
      omega
    · simp only [lookupKey, if_neg hk] at h
      rw [countKey_cons_ne _ _ _ _ hk]
      exact ih h

theorem removeKey_countKey_self (l : List (String × Nat)) (k : String) :
    countKey (removeKey l k) k = 0 := by
  induction l with
  | nil => rfl
  | cons p rest ih =>
    obtain ⟨k', v⟩ := p
    by_cases hk : k' = k
    · simp only [removeKey, if_pos hk]; exact ih
    · simp only [removeKey, if_neg hk]
      rw [countKey_cons_ne _ _ _ _ hk, ih]

theorem removeKey_countKey_ne (l : List (String × Nat)) (k k' : String) (hne : k' ≠ k) :
    countKey (removeKey l k) k' = countKey l k' := by
  induction l with
  | nil => rfl
  | cons p rest ih =>
    obtain ⟨k0, v⟩ := p
    by_cases hk : k0 = k
    · simp only [removeKey, if_pos hk]
      rw [ih, countKey_cons_ne _ _ _ _ (fun h => hne (h.symm.trans hk))]
    · simp only [removeKey, if_neg hk]
      by_cases h2 : k0 = k'
      · rw [h2, countKey_cons_self, countKey_cons_self, ih]
      · rw [countKey_cons_ne _ _ _ _ h2, countKey_cons_ne _ _ _ _ h2, ih]

theorem dedupInv_step (s : DedupState) (e : DedupEvent) (hs : DedupInv s) :
    DedupInv (dedupStep s e) := by
  cases e with
  | request k =>
    cases hlk : lookupKey s.pending k with
    | some id =>
      intro k'
      simpa [dedupStep, hlk] using hs k'
    | none =>
      intro k'
      simp only [dedupStep, hlk]
      by_cases hk : k = k'
      · subst hk
        have h0 := lookupKey_none_countKey _ _ hlk
        have h1 := hs k
        rw [countKey_cons_self, countKey_cons_self]
        omega
      · rw [countKey_cons_ne _ _ _ _ hk, countKey_cons_ne _ _ _ _ hk]
        exact hs k'
  | settle k =>
    cases hlk : lookupKey s.pending k with
    | some id =>
      intro k'
      simp only [dedupStep, hlk]
      by_cases hk : k = k'
      · subst hk
        have h1 := lookupKey_some_countKey _ _ _ hlk
        have h2 := hs k
        rw [removeKey_countKey_self, countKey_cons_self]
        omega
      · have h2 := hs k'
        rw [removeKey_countKey_ne _ _ _ (fun h => hk h.symm),
          countKey_cons_ne _ _ _ _ hk]
        exact h2
    | none =>
      intro k'
      simpa [dedupStep, hlk] using hs k'

theorem dedupInv_run (events : List DedupEvent) : DedupInv (dedupRun events) := by
  suffices h : ∀ s, DedupInv s → DedupInv (events.foldl dedupStep s) by
    refine h dedupInit ?_
    intro k
    exact ⟨Nat.zero_le 1, rfl⟩
  induction events with
  | nil => intro s hs; exact hs
  | cons e rest ih =>
    intro s hs
    exact ih _ (dedupInv_step s e hs)

/-! ### Cache-aside data fetchers (claims C9, C10).

The query endpoint's decoded JSON is modelled as
`Except ReqError (Option Entities)`: `.error e` is a failure propagated out of
`fazerRequisicaoAutenticada`, `.ok none` a response whose
`responseBody`/`responseBody.entities` is missing, and `.ok (some ents)` a
well-formed `entities` object with its `metadata.fields.field` names, its
optional `entity` payload and its optional `total` (a decimal string,
modelled as the parsed `Nat`).  Each fetcher returns the list of cache `set`
calls it performs together with its result; the cache-hit short-circuit
(`cached !== null`) is the trivial wrapper below each compute function and is
not repeated per claim. -/

structure Entities where
  fieldNames : List String
  entity : Option RawEntities
  total : Option Nat

/-- Errors a fetcher can surface: an error rethrown from the request layer,
or the `TypeError` raised by reading `.entities` of a missing `responseBody`
in the fetchers that do not guard the response shape. -/
inductive FetchError where
  | req (e : ReqError)
  | typeError
deriving DecidableEq

def ceilDiv (a b : Nat) : Nat := (a + b - 1) / b

/-- JS string interpolation of a possibly-undefined number
(template `${codVendedor}` prints `undefined`). -/
def optNatStr : Option Nat → String
  | some n => toString n
  | none => "undefined"

def joinComma : List Nat → String
  | [] => ""
  | [n] => toString n
  | n :: rest => toString n ++ "," ++ joinComma rest

/-- `${codVendedoresEquipe?.join(',')}`. -/
def optJoinStr : Option (List Nat) → String
  | some l => joinComma l
  | none => "undefined"

/-! #### consultarProdutos (produtos-service.ts lines 272-416) -/

structure ProdutosResultado where
  produtos : List (String → Option String)
  total : Nat
  page : Nat
  pageSize : Nat
  totalPages : Nat

structure ProdutosWrite where
  key : String
  value : ProdutosResultado
  ttlSeconds : Nat

def produtosCacheKey (page pageSize : Nat) (searchName searchCode : String) : String :=
  "produtos:list:" ++ toString page ++ ":" ++ toString pageSize ++ ":"
    ++ searchName ++ ":" ++ searchCode

def emptyProdutos (page pageSize : Nat) : ProdutosResultado :=
  ⟨[], 0, page, pageSize, 0⟩

/-- `{...produto, ESTOQUE: '0', VLRCOMERC: produto.VLRCOMERC || '0'}`
(produtos-service.ts lines 380-384). -/
def addEstoqueZero (p : String → Option String) : String → Option String :=
  setField (setField p "ESTOQUE" "0") "VLRCOMERC"
    (match p "VLRCOMERC" with
     | some v => if v = "" then "0" else v
     | none => "0")

/-- Cache-miss body of `consultarProdutos` (the lambda passed to
`dedupedRequest`, produtos-service.ts lines 328-415). -/
def consultarProdutosCompute (page pageSize : Nat) (searchName searchCode : String)
    (fetch : Except ReqError (Option Entities)) :
    List ProdutosWrite × Except FetchError ProdutosResultado :=
  let key := produtosCacheKey page pageSize searchName searchCode
  match fetch with
  | .error e => ([⟨key, emptyProdutos page pageSize, 60⟩], .error (.req e))
  | .ok none => ([⟨key, emptyProdutos page pageSize, 60 * 60⟩], .ok (emptyProdutos page pageSize))
  | .ok (some ents) =>
    match ents.entity with
    | none => ([⟨key, emptyProdutos page pageSize, 60 * 60⟩], .ok (emptyProdutos page pageSize))
    | some raw =>
      let lista := mapearEntidades ents.fieldNames raw
      let lista := if lista.length > pageSize then lista.take pageSize else lista
      let produtosComEstoque := lista.map addEstoqueZero
      let resultado : ProdutosResultado :=
        { produtos := produtosComEstoque,
          total := match ents.total with
                   | some t => t
                   | none => produtosComEstoque.length,
          page := page,
          pageSize := pageSize,
          totalPages := match ents.total with
                        | some t => ceilDiv t pageSize
                        | none => 1 }
      ([⟨key, resultado, 60 * 60⟩], .ok resultado)

/-- Cache-hit wrapper of `consultarProdutos` (lines 318-324). -/
def consultarProdutos (cached : Option ProdutosResultado) (page pageSize : Nat)
    (searchName searchCode : String) (fetch : Except ReqError (Option Entities)) :
    List ProdutosWrite × Except FetchError ProdutosResultado :=
  match cached with
  | some r => ([], .ok r)
  | none => consultarProdutosCompute page pageSize searchName searchCode fetch

/-! #### consultarParceiros (sankhya-api.ts lines 508-657) -/

structure ParceirosResultado where
  parceiros : List (String → Option String)
  total : Nat
  page : Nat
  pageSize : Nat
  totalPages : Nat

structure ParceirosWrite where
  key : String
  value : ParceirosResultado
  ttlSeconds : Nat

def parceirosCacheKey (page pageSize : Nat) (searchName searchCode : String)
    (codVendedor : Option Nat) (codVendedoresEquipe : Option (List Nat)) : String :=
  "parceiros:list:" ++ toString page ++ ":" ++ toString pageSize ++ ":"
    ++ searchName ++ ":" ++ searchCode ++ ":" ++ optNatStr codVendedor ++ ":"
    ++ optJoinStr codVendedoresEquipe

/-- Cache-miss body of `consultarParceiros` (lines 581-656).  The empty-result
paths return without any cache write, and the `catch (erro) { throw erro }`
rethrows without writing a sentinel. -/
def consultarParceirosCompute (page pageSize : Nat) (searchName searchCode : String)
    (codVendedor : Option Nat) (codVendedoresEquipe : Option (List Nat))
    (fetch : Except ReqError (Option Entities)) :
    List ParceirosWrite × Except FetchError ParceirosResultado :=
  let key := parceirosCacheKey page pageSize searchName searchCode codVendedor
    codVendedoresEquipe
  match fetch with
  | .error e => ([], .error (.req e))
  | .ok none => ([], .ok ⟨[], 0, page, pageSize, 0⟩)
  | .ok (some ents) =>
    match ents.entity with
    | none => ([], .ok ⟨[], 0, page, pageSize, 0⟩)
    | some raw =>
      let lista := mapearParceiros ents.fieldNames raw
      let total := match ents.total with
                   | some t => t
                   | none => lista.length
      let resultado : ParceirosResultado :=
        ⟨lista, total, page, pageSize, ceilDiv total pageSize⟩
      ([⟨key, resultado, 10 * 60⟩], .ok resultado)

/-! #### consultarTiposOperacao / consultarTiposNegociacao (sankhya-api.ts
lines 660-738 and 741-819).  These access
`respostaCompleta.responseBody.entities` without a guard, so a missing
`responseBody` raises a `TypeError` which the `catch` rethrows; on any
failure nothing is written to the cache.  The per-row mapping has no `_id`
assignment. -/

structure TiposWrite where
  key : String
  value : List (String → Option String)
  ttlSeconds : Nat

def mapearTipos (fieldNames : List String) (raw : RawEntities) :
    List (String → Option String) :=
  (entityArray raw).map (fun r => mapearLinha fieldNames r)

def consultarTiposOperacaoCompute (fetch : Except ReqError (Option Entities)) :
    List TiposWrite × Except FetchError (List (String → Option String)) :=
  match fetch with
  | .error e => ([], .error (.req e))
  | .ok none => ([], .error .typeError)
  | .ok (some ents) =>
    match ents.entity with
    | none => ([], .ok [])
    | some raw =>
      let tipos := mapearTipos ents.fieldNames raw
      ([⟨"tipos:operacao:all", tipos, 60 * 60⟩], .ok tipos)

def consultarTiposNegociacaoCompute (fetch : Except ReqError (Option Entities)) :
    List TiposWrite × Except FetchError (List (String → Option String)) :=
  match fetch with
  | .error e => ([], .error (.req e))
  | .ok none => ([], .error .typeError)
  | .ok (some ents) =>
    match ents.entity with
    | none => ([], .ok [])
    | some raw =>
      let tipos := mapearTipos ents.fieldNames raw
      ([⟨"tipos:negociacao:all", tipos, 60 * 60⟩], .ok tipos)

/-! #### consultarEstoqueProduto (produtos-service.ts lines 419-548) -/

structure EstoqueResultado where
  estoques : List (String → Option String)
  total : Nat
  estoqueTotal : Int

structure EstoqueWrite where
  key : String
  value : EstoqueResultado
  ttlSeconds : Nat

def estoqueCacheKey (codProd searchLocal : String) : String :=
  "estoque:produto:" ++ codProd ++ ":" ++ searchLocal

def emptyEstoque : EstoqueResultado := ⟨[], 0, 0⟩

/-- Cache-miss body of `consultarEstoqueProduto`.  `parseNum` models JS
`parseFloat` (floating point is not modelled; no claim settled here depends
on its values).  `estoque.ESTOQUE || '0'` maps a missing or empty field to
the string "0". -/
def consultarEstoqueCompute (codProd searchLocal : String) (parseNum : String → Int)
    (fetch : Except ReqError (Option Entities)) :
    List EstoqueWrite × Except FetchError EstoqueResultado :=
  let key := estoqueCacheKey codProd searchLocal
  match fetch with
  | .error e => ([⟨key, emptyEstoque, 15⟩], .error (.req e))
  | .ok none => ([⟨key, emptyEstoque, 30⟩], .ok emptyEstoque)
  | .ok (some ents) =>
    match ents.entity with
    | none => ([⟨key, emptyEstoque, 30⟩], .ok emptyEstoque)
    | some raw =>
      let lista := mapearEntidades ents.fieldNames raw
      let estoqueTotal := lista.foldl
        (fun acc e => acc + parseNum
          (match e "ESTOQUE" with
           | some v => if v = "" then "0" else v
           | none => "0")) 0
      let resultado : EstoqueResultado := ⟨lista, lista.length, estoqueTotal⟩
      ([⟨key, resultado, 30⟩], .ok resultado)

/-! #### consultarTipVendaPorModelo (sankhya-api.ts lines 1093-1155).  No
cache is used at all, and every failure — request error, `TypeError` on a
malformed response, or an empty row set — is swallowed by the `catch`, which
returns `{codTipVenda: null, nunota: null}`. -/

def consultarTipVendaPorModeloCompute (fetch : Except ReqError (Option Entities)) :
    Option String × Option String :=
  match fetch with
  | .error _ => (none, none)
  | .ok none => (none, none)
  | .ok (some ents) =>
    match ents.entity with
    | none => (none, none)
    | some raw =>
      match (entityArray raw).head? with
      | none => (none, none)
      | some r =>
        let cabecalho := mapearLinha ents.fieldNames r
        (cabecalho "CODTIPVENDA", cabecalho "NUNOTA")

/-! ## Claim theorems -/

/-- C1: a cached Credential whose `expiresAt` is not in the future
(`expiresAt ≤ now`) is never returned by `obterToken`'s fast path, nor by the
final read after the lock-wait ceiling: both treat it as absent and the
function proceeds to renewal. -/
theorem tokenFastPath_expired (td : TokenCache) (agora : Int) (force : Bool)
    (h : td.expiresAt ≤ agora) :
    tokenFastPath (some td) agora force = none ∧
    tokenAfterLockTimeout (some td) agora = none := by
  have h2 : ¬ td.expiresAt - agora > 0 := by omega
  constructor
  · simp [tokenFastPath, h2]
  · simp [tokenAfterLockTimeout, h2]

/-- Witness for C1 at a concrete expired credential. -/
theorem tokenFastPath_expired_witness :
    (TokenCache.mk "tok" 5 "g").expiresAt ≤ 5 ∧
    (tokenFastPath (some (TokenCache.mk "tok" 5 "g")) 5 false = none ∧
     tokenAfterLockTimeout (some (TokenCache.mk "tok" 5 "g")) 5 = none) :=
  ⟨by decide, tokenFastPath_expired (TokenCache.mk "tok" 5 "g") 5 false (by decide)⟩

/-- C2 (refuting schedule): the lock acquisition is a get-then-set with no
compare-and-set, so when both processes read the absent lock before either
writes it, both acquire the lock, both pass the in-lock double check before
any token is saved, and two login calls are issued — the callers obtain two
different tokens.  This contradicts the single-flight property the code's own
comment ("só funciona se não existir") claims for the `set`. -/
theorem obterToken_lock_race :
    (lockRun [false, true, false, true, false, true, false, true]).logins = 2 ∧
    (lockRun [false, true, false, true, false, true, false, true]).pcA = .finished ∧
    (lockRun [false, true, false, true, false, true, false, true]).pcB = .finished :=
  ⟨rfl, rfl, rfl⟩

/-- C8 counterexample: the credential is persisted with a TTL of exactly 20
minutes, equal to the semantic lifetime; even when the store write happens at
the very instant `expiresAt` was computed, eviction happens at `expiresAt`,
not strictly before it. -/
theorem tokenTTL_not_strictly_before : ¬ tokenEvictionTime 0 < tokenExpiresAt 0 := by
  decide

/-- C8 (amended): `expiresAt = now + 20 minutes`, the cache TTL is exactly
20 minutes (not shorter), and since the store write happens at or after the
instant `expiresAt` is computed, the store evicts the entry no earlier than
`expiresAt`; staleness is instead caught by the `expiresAt` re-check on
read. -/
theorem tokenTTL_amended (now setTime : Int) (h : now ≤ setTime) :
    tokenExpiresAt now = now + 20 * 60 * 1000 ∧
    TOKEN_TTL_SECONDS = 20 * 60 ∧
    tokenExpiresAt now ≤ tokenEvictionTime setTime := by
  refine ⟨rfl, rfl, ?_⟩
  unfold tokenExpiresAt tokenEvictionTime TOKEN_TTL_SECONDS
  norm_num
  omega

/-- Witness for C8's amended theorem at `now = setTime = 0`. -/
theorem tokenTTL_amended_witness :
    (0 : Int) ≤ 0 ∧ tokenExpiresAt 0 ≤ tokenEvictionTime 0 :=
  ⟨le_refl 0, (tokenTTL_amended 0 0 (le_refl 0)).2.2⟩

/-- C3: when the first attempt receives HTTP 401 or 403, the cached
Credential is deleted and the request is retried exactly once after 500 ms
with a freshly obtained token (the trace of the call is the first attempt,
the token deletion and the 500 ms sleep followed by the retried call's
trace); if the retried call again receives 401/403, it deletes the credential
and fails with the session-expired error without any further attempt. -/
theorem fazerRequisicaoAutenticada_sessionExpiry (resp : Nat → HttpOutcome)
    (h0 : resp 0 = .httpError 401 ∨ resp 0 = .httpError 403) :
    fazerRequisicaoAutenticada resp 0 =
      ((fazerRequisicaoAutenticada resp 1).1,
        .attempt 0 :: .deleteToken :: .sleep 500 :: (fazerRequisicaoAutenticada resp 1).2) ∧
    ((resp 1 = .httpError 401 ∨ resp 1 = .httpError 403) →
      fazerRequisicaoAutenticada resp 1 =
        (.error .sessionExpired, [.attempt 1, .deleteToken])) := by
  constructor
  · rcases h0 with h | h <;> (unfold fazerRequisicaoAutenticada; rw [h]; rfl)
  · intro h1
    rcases h1 with h | h <;> (unfold fazerRequisicaoAutenticada; rw [h]; rfl)

/-- Witness for C3: a downstream answering 401 on every attempt. -/
theorem fazerRequisicaoAutenticada_sessionExpiry_witness :
    ((fun _ => HttpOutcome.httpError 401) 0 = HttpOutcome.httpError 401 ∨
     (fun _ => HttpOutcome.httpError 401) 0 = HttpOutcome.httpError 403) ∧
    fazerRequisicaoAutenticada (fun _ => HttpOutcome.httpError 401) 0 =
      ((fazerRequisicaoAutenticada (fun _ => HttpOutcome.httpError 401) 1).1,
        .attempt 0 :: .deleteToken :: .sleep 500 ::
          (fazerRequisicaoAutenticada (fun _ => HttpOutcome.httpError 401) 1).2) :=
  ⟨Or.inl rfl,
    (fazerRequisicaoAutenticada_sessionExpiry (fun _ => .httpError 401) (Or.inl rfl)).1⟩

/-- C4: against a downstream that always answers HTTP 500, or always times
out, or always fails name resolution, `fazerRequisicaoAutenticada` makes
exactly `MAX_RETRIES + 1 = 3` attempts with linear backoff
`RETRY_DELAY * (retryCount + 1)` (1000 ms then 2000 ms), then fails with an
error of the spec's ServiceUnavailable class — the exact
"Serviço temporariamente indisponível" error in the HTTP 500 case. -/
theorem fazerRequisicaoAutenticada_retryExhaustion (resp : Nat → HttpOutcome)
    (o : HttpOutcome)
    (ho : o = .httpError 500 ∨ o = .netError .econnaborted ∨ o = .netError .enotfound)
    (hresp : ∀ n, resp n = o) :
    (fazerRequisicaoAutenticada resp 0).2 =
      [.attempt 0, .sleep 1000, .attempt 1, .sleep 2000, .attempt 2] ∧
    ∃ e, (fazerRequisicaoAutenticada resp 0).1 = .error e ∧
      specServiceUnavailableClass e = true ∧
      (o = .httpError 500 → e = .serviceUnavailable) := by
  rcases ho with h | h | h <;> subst h
  · have hall : fazerRequisicaoAutenticada resp 0 =
        (.error .serviceUnavailable,
          [.attempt 0, .sleep 1000, .attempt 1, .sleep 2000, .attempt 2]) := by
      unfold fazerRequisicaoAutenticada
      rw [hresp 0]
      rw [show fazerReqGo resp 2 0 (.httpError 500) =
            ((fazerReqGo resp 1 1 (resp 1)).1,
              .attempt 0 :: .sleep 1000 :: (fazerReqGo resp 1 1 (resp 1)).2) from rfl]
      rw [hresp 1]
      rw [show fazerReqGo resp 1 1 (.httpError 500) =
            ((fazerReqGo resp 0 2 (resp 2)).1,
              .attempt 1 :: .sleep 2000 :: (fazerReqGo resp 0 2 (resp 2)).2) from rfl]
      rw [hresp 2]
      rfl
    refine ⟨by rw [hall], .serviceUnavailable, by rw [hall], rfl, fun _ => rfl⟩
  · have hall : fazerRequisicaoAutenticada resp 0 =
        (.error .timeoutExceeded,
          [.attempt 0, .sleep 1000, .attempt 1, .sleep 2000, .attempt 2]) := by
      unfold fazerRequisicaoAutenticada
      rw [hresp 0]
      rw [show fazerReqGo resp 2 0 (.netError .econnaborted) =
            ((fazerReqGo resp 1 1 (resp 1)).1,
              .attempt 0 :: .sleep 1000 :: (fazerReqGo resp 1 1 (resp 1)).2) from rfl]
      rw [hresp 1]
      rw [show fazerReqGo resp 1 1 (.netError .econnaborted) =
            ((fazerReqGo resp 0 2 (resp 2)).1,
              .attempt 1 :: .sleep 2000 :: (fazerReqGo resp 0 2 (resp 2)).2) from rfl]
      rw [hresp 2]
      rfl
    refine ⟨by rw [hall], .timeoutExceeded, by rw [hall], rfl, fun hco => by cases hco⟩
  · have hall : fazerRequisicaoAutenticada resp 0 =
        (.error .networkFailure,
          [.attempt 0, .sleep 1000, .attempt 1, .sleep 2000, .attempt 2]) := by
      unfold fazerRequisicaoAutenticada
      rw [hresp 0]
      rw [show fazerReqGo resp 2 0 (.netError .enotfound) =
            ((fazerReqGo resp 1 1 (resp 1)).1,
              .attempt 0 :: .sleep 1000 :: (fazerReqGo resp 1 1 (resp 1)).2) from rfl]
      rw [hresp 1]
      rw [show fazerReqGo resp 1 1 (.netError .enotfound) =
            ((fazerReqGo resp 0 2 (resp 2)).1,
              .attempt 1 :: .sleep 2000 :: (fazerReqGo resp 0 2 (resp 2)).2) from rfl]
      rw [hresp 2]
      rfl
    refine ⟨by rw [hall], .networkFailure, by rw [hall], rfl, fun hco => by cases hco⟩

/-- Witness for C4: a downstream answering 500 on every attempt. -/
theorem fazerRequisicaoAutenticada_retryExhaustion_witness :
    (fazerRequisicaoAutenticada (fun _ => HttpOutcome.httpError 500) 0).2 =
      [.attempt 0, .sleep 1000, .attempt 1, .sleep 2000, .attempt 2] ∧
    ∃ e, (fazerRequisicaoAutenticada (fun _ => HttpOutcome.httpError 500) 0).1 = .error e ∧
      specServiceUnavailableClass e = true ∧
      (HttpOutcome.httpError 500 = .httpError 500 → e = .serviceUnavailable) :=
  fazerRequisicaoAutenticada_retryExhaustion (fun _ => .httpError 500) (.httpError 500)
    (Or.inl rfl) (fun _ => rfl)

/-- C5 counterexample: a login failure with HTTP status 503 — a transient
5xx server error with the full retry budget remaining — is not retried at
all (a single login attempt) and is classified with the generic
authentication-failure error, not the ServiceUnavailable one; the code's
retry guard and classification test `status === 500` exactly, not any 5xx.
Also, with `MAX_RETRIES = 3` and guard `retryCount < 3`, an always-500 login
makes 4 attempts, not 3. -/
theorem obterToken_5xx_counterexample :
    obterTokenRenew (fun _ => .httpFail 503) 0 =
      (.error .authFailed, [.loginAttempt 0, .releaseLock, .clearToken]) ∧
    (obterTokenRenew (fun _ => .httpFail 500) 0).2.countP
      (fun e => match e with | .loginAttempt _ => true | _ => false) = 4 ∧
    AuthError.authFailed ≠ AuthError.serviceUnavailable :=
  ⟨rfl, rfl, by decide⟩

/-- C5 (amended): on login failure `obterToken` releases the lock first; if
the failure has HTTP status exactly 500 (not any 5xx) and `retryCount < 3`,
it sleeps `1000 * (retryCount + 1)` ms and recurses with an incremented
counter (so up to 3 retries after the first attempt); otherwise it clears
the residual Credential and fails, with the ServiceUnavailable message
exactly when the status is 500 and the generic authentication-failure
message for every other failure, including other 5xx statuses and
network-level failures. -/
theorem obterToken_login_failure (login : Nat → LoginOutcome) (rc : Nat) :
    (∀ s, login rc = .httpFail s →
      ((s = 500 ∧ rc < 3) →
        obterTokenRenew login rc =
          ((obterTokenRenew login (rc + 1)).1,
            .loginAttempt rc :: .releaseLock :: .sleep (1000 * (rc + 1)) ::
              (obterTokenRenew login (rc + 1)).2)) ∧
      ((s = 500 ∧ ¬ rc < 3) →
        obterTokenRenew login rc =
          (.error .serviceUnavailable, [.loginAttempt rc, .releaseLock, .clearToken])) ∧
      (s ≠ 500 →
        obterTokenRenew login rc =
          (.error .authFailed, [.loginAttempt rc, .releaseLock, .clearToken]))) ∧
    (login rc = .netFail →
      obterTokenRenew login rc =
        (.error .authFailed, [.loginAttempt rc, .releaseLock, .clearToken])) := by
  constructor
  · intro s hs
    refine ⟨?_, ?_, ?_⟩
    · rintro ⟨h500, hrc⟩
      subst h500
      obtain ⟨r, hr⟩ : ∃ r, 3 - rc = r + 1 := ⟨3 - rc - 1, by omega⟩
      have hr2 : 3 - (rc + 1) = r := by omega
      unfold obterTokenRenew
      rw [hs, hr, hr2]
      rfl
    · rintro ⟨h500, hrc⟩
      subst h500
      have h0 : 3 - rc = 0 := by omega
      unfold obterTokenRenew
      rw [hs, h0]
      rfl
    · intro hne
      unfold obterTokenRenew
      rw [hs]
      cases h3 : 3 - rc with
      | zero =>
        show (if s = 500 then _ else _) = _
        rw [if_neg hne]
      | succ r =>
        show (if s = 500 then _ else _) = _
        rw [if_neg hne]
  · intro h
    unfold obterTokenRenew
    rw [h]
    cases h3 : 3 - rc with
    | zero => rfl
    | succ r => rfl

/-- Witness for C5's amended theorem: a 500 login failure at retryCount 0 is
retried with a 1 s backoff. -/
theorem obterToken_login_failure_witness :
    obterTokenRenew (fun _ => LoginOutcome.httpFail 500) 0 =
      ((obterTokenRenew (fun _ => LoginOutcome.httpFail 500) 1).1,
        .loginAttempt 0 :: .releaseLock :: .sleep 1000 ::
          (obterTokenRenew (fun _ => LoginOutcome.httpFail 500) 1).2) :=
  ((obterToken_login_failure (fun _ => .httpFail 500) 0).1 500 rfl).1 ⟨rfl, by decide⟩

/-- C6: `dedupedRequest` is single-flight per key.  Over every event trace,
at most one registration per key is pending and the number of operations ever
started equals pending plus settled, so at most one physical call is in
flight per key.  A request arriving while `key` is pending joins the
registered operation's shared promise (same id) and changes nothing else — in
particular it does not invoke the operation; a settle (success or failure
alike) removes exactly the registration for its key; a request on a free key
invokes the operation and registers it. -/
theorem dedupedRequest_single_flight :
    (∀ events : List DedupEvent, ∀ k,
        countKey (dedupRun events).pending k ≤ 1 ∧
        countKey (dedupRun events).started k =
          countKey (dedupRun events).pending k + countKey (dedupRun events).settled k) ∧
    (∀ s k id, lookupKey s.pending k = some id →
        dedupStep s (.request k) = { s with joins := (k, id) :: s.joins }) ∧
    (∀ s k id, lookupKey s.pending k = some id →
        dedupStep s (.settle k) =
          { s with pending := removeKey s.pending k, settled := (k, id) :: s.settled }) ∧
    (∀ s k, lookupKey s.pending k = none →
        dedupStep s (.request k) =
          { s with
            pending := (k, s.nextId) :: s.pending,
            started := (k, s.nextId) :: s.started,
            nextId := s.nextId + 1 }) := by
  refine ⟨fun events k => dedupInv_run events k, ?_, ?_, ?_⟩
  · intro s k id h
    simp [dedupStep, h]
  · intro s k id h
    simp [dedupStep, h]
  · intro s k h
    simp [dedupStep, h]

/-- Witness for C6: after one request registers under `"a"` with operation
id 0, a second request for `"a"` joins that operation. -/
theorem dedupedRequest_single_flight_witness :
    lookupKey (dedupRun [DedupEvent.request "a"]).pending "a" = some 0 ∧
    dedupStep (dedupRun [DedupEvent.request "a"]) (.request "a") =
      { dedupRun [DedupEvent.request "a"] with
        joins := ("a", 0) :: (dedupRun [DedupEvent.request "a"]).joins } :=
  ⟨rfl, dedupedRequest_single_flight.2.1 (dedupRun [DedupEvent.request "a"]) "a" 0 rfl⟩

/-- C7: the normalization zips field name `i` to positional slot `f<i>`,
taking its `$` value, and omits names whose slot is absent: for duplicate-free
field-name lists the normalized record at name `i` is exactly `row i`, names
outside the list are absent, and on the spec's concrete example
(`["CODPROD","DESCRPROD"]` with `{f0:{$:"10"}, f1:{$:"Widget"}}`) the record
maps CODPROD to "10" and DESCRPROD to "Widget" (with `_id` taken from
CODPROD by `mapearEntidades`). -/
theorem mapearEntidades_normalization (names : List String) (row : Nat → Option String)
    (hnd : names.Nodup) :
    (∀ i (h : i < names.length), mapearLinha names row (names.get ⟨i, h⟩) = row i) ∧
    (∀ k, k ∉ names → mapearLinha names row k = none) ∧
    (mapearLinha ["CODPROD", "DESCRPROD"] exampleRow "CODPROD" = some "10" ∧
     mapearLinha ["CODPROD", "DESCRPROD"] exampleRow "DESCRPROD" = some "Widget" ∧
     (mapearEntidades ["CODPROD", "DESCRPROD"] (.many [exampleRow])).map
        (fun r => (r "CODPROD", r "DESCRPROD", r "_id")) =
       [(some "10", some "Widget", some "10")]) := by
  refine ⟨?_, ?_, rfl, rfl, rfl⟩
  · intro i h
    unfold mapearLinha
    rw [mapearLinhaAux_get row names 0 emptyObj hnd i h, Nat.zero_add]
    cases row i <;> rfl
  · intro k hk
    unfold mapearLinha
    rw [mapearLinhaAux_not_mem row names 0 emptyObj k hk]
    rfl

/-- Witness for C7 at the spec's example field list. -/
theorem mapearEntidades_normalization_witness :
    (["CODPROD", "DESCRPROD"] : List String).Nodup ∧
    mapearLinha ["CODPROD", "DESCRPROD"] exampleRow "CODPROD" = some "10" :=
  ⟨by decide,
    ((mapearEntidades_normalization ["CODPROD", "DESCRPROD"] exampleRow
      (by decide)).2.2).1⟩

/-- C9 counterexample: `consultarParceiros` performs no cache write on
failure — the error propagates with no short-TTL sentinel stored — refuting
the claim that every fetcher stores a sentinel before propagating. -/
theorem consultarParceiros_no_sentinel :
    consultarParceirosCompute 1 50 "" "" none none (.error .sessionExpired) =
      ([], .error (.req .sessionExpired)) := rfl

/-- C9 (amended): on fetch failure the products fetcher stores a 60 s empty
sentinel and the stock fetcher a 15 s empty sentinel before propagating the
error; the partners, operation-types and negotiation-types fetchers propagate
the error without storing any sentinel; and the order-header-by-model fetcher
neither caches nor propagates, returning null fields. -/
theorem fetchers_failure_paths (e : ReqError) (page pageSize : Nat)
    (sn sc codProd sl : String) (cv : Option Nat) (equipe : Option (List Nat))
    (parseNum : String → Int) :
    consultarProdutosCompute page pageSize sn sc (.error e) =
      ([⟨produtosCacheKey page pageSize sn sc, emptyProdutos page pageSize, 60⟩],
        .error (.req e)) ∧
    consultarEstoqueCompute codProd sl parseNum (.error e) =
      ([⟨estoqueCacheKey codProd sl, emptyEstoque, 15⟩], .error (.req e)) ∧
    consultarParceirosCompute page pageSize sn sc cv equipe (.error e) =
      ([], .error (.req e)) ∧
    consultarTiposOperacaoCompute (.error e) = ([], .error (.req e)) ∧
    consultarTiposNegociacaoCompute (.error e) = ([], .error (.req e)) ∧
    consultarTipVendaPorModeloCompute (.error e) = (none, none) :=
  ⟨rfl, rfl, rfl, rfl, rfl, rfl⟩

/-- C10: every successful result computed by `consultarProdutos` has at most
`pageSize` products, and every returned record's ESTOQUE field is the string
"0" regardless of actual stock (stock is left to on-demand loading). -/
theorem consultarProdutos_pageSize_estoque (page pageSize : Nat)
    (sn sc : String) (fetch : Except ReqError (Option Entities)) :
    match (consultarProdutosCompute page pageSize sn sc fetch).2 with
    | .ok r => r.produtos.length ≤ pageSize ∧ ∀ p ∈ r.produtos, p "ESTOQUE" = some "0"
    | .error _ => True := by
  cases fetch with
  | error e => exact trivial
  | ok oents =>
    cases oents with
    | none => exact ⟨Nat.zero_le _, fun p hp => absurd hp (List.not_mem_nil p)⟩
    | some ents =>
      obtain ⟨fns, ent, tot⟩ := ents
      cases ent with
      | none => exact ⟨Nat.zero_le _, fun p hp => absurd hp (List.not_mem_nil p)⟩
      | some raw =>
        refine ⟨?_, ?_⟩
        · show ((if (mapearEntidades fns raw).length > pageSize
                then (mapearEntidades fns raw).take pageSize
                else mapearEntidades fns raw).map addEstoqueZero).length ≤ pageSize
          rw [List.length_map]
          by_cases hlen : (mapearEntidades fns raw).length > pageSize
          · rw [if_pos hlen, List.length_take]
            exact Nat.min_le_left _ _
          · rw [if_neg hlen]
            omega
        · intro p hp
          rw [List.mem_map] at hp
          obtain ⟨q, hq, rfl⟩ := hp
          rfl

/-- Witness for C10 at a concrete one-row response with page size 50. -/
theorem consultarProdutos_pageSize_estoque_witness :
    match (consultarProdutosCompute 1 50 "" ""
        (.ok (some ⟨["CODPROD", "DESCRPROD"], some (.many [exampleRow]), some 1⟩))).2 with
    | .ok r => r.produtos.length ≤ 50 ∧ ∀ p ∈ r.produtos, p "ESTOQUE" = some "0"
    | .error _ => True :=
  consultarProdutos_pageSize_estoque 1 50 "" ""
    (.ok (some ⟨["CODPROD", "DESCRPROD"], some (.many [exampleRow]), some 1⟩))

end SankhyaVendas
